import Mathlib

/-!
Verification of the inventory-scanner app (src/app.py) against its
natural-language specification.  The Python code is shallowly embedded:
pandas tables become lists of records, Python's dynamically typed cell
values become the sum type PyVal, and the submission / reset / grid-edit
handlers become pure functions returning the new ledger together with a
flag recording whether the session file was rewritten.
-/

namespace BarcodeApp

/-- Python's `str.strip()`: drop leading and trailing whitespace. -/
def pyStrip (s : String) : String :=
  String.mk (((s.toList.dropWhile Char.isWhitespace).reverse.dropWhile
    Char.isWhitespace).reverse)

/-- Python's `str.replace(".0", "")` (and pandas `.str.replace(".0", "",
regex=False)`): remove every non-overlapping occurrence of the substring
".0", scanning left to right. -/
def replaceDot0 : List Char → List Char
  | '.' :: '0' :: rest => replaceDot0 rest
  | c :: rest => c :: replaceDot0 rest
  | [] => []

/-- Normalization applied to a scanned entry (app.py line 126:
`entry.strip().replace(".0", "")`) and to the UPC column of the lookup
table (app.py line 27). -/
def normalize_entry (s : String) : String :=
  String.mk (replaceDot0 (pyStrip s).toList)

/-- One raw row of the reference spreadsheet "Barcode Lookup.xlsx". -/
structure RawLookupRow where
  upc : String
  sku : String
  brandName : String
  size : String
deriving DecidableEq

/-- One row of the in-memory lookup table after `load_lookup`. -/
structure LookupRow where
  upc : String
  sku : String
  brandName : String
  size : String
deriving DecidableEq

/-- app.py lines 25-29: UPC gets strip + all-occurrence ".0" removal,
SKU gets only strip, other columns are untouched. -/
def load_lookup (rows : List RawLookupRow) : List LookupRow :=
  rows.map fun r =>
    { upc := normalize_entry r.upc
      sku := pyStrip r.sku
      brandName := r.brandName
      size := r.size }

/-- Membership test plus `.at` access on `lookup_df` (indexed by UPC):
first row whose UPC equals the key. -/
def findByUPC (lt : List LookupRow) (k : String) : Option LookupRow :=
  lt.find? (fun r => r.upc == k)

/-- Membership test plus `.at` access on `lookup_by_sku` (same table
re-indexed by SKU): first row whose SKU equals the key. -/
def findBySKU (lt : List LookupRow) (k : String) : Option LookupRow :=
  lt.find? (fun r => r.sku == k)

/-- The scan resolver, app.py lines 126-140: normalize the entry, probe
the barcode (UPC) index, then the SKU index; `none` is the not-found
signal.  On a UPC hit the resulting SKU is the row's SKU column; on a
SKU hit it is the normalized entry itself. -/
def resolve (lt : List LookupRow) (entry : String) :
    Option (String × String × String) :=
  let e := normalize_entry entry
  match findByUPC lt e with
  | some r => some (r.sku, r.brandName, r.size)
  | none =>
    match findBySKU lt e with
    | some r => some (e, r.brandName, r.size)
    | none => none

/-- A dynamically typed Python cell value, as far as the ledger needs:
either a string or an integer. -/
inductive PyVal where
  | str : String → PyVal
  | int : Int → PyVal
deriving DecidableEq

/-- Python's `str()` rendering of a cell value. -/
def pyValToStr : PyVal → String
  | .str s => s
  | .int n => toString n

/-- One row of the count ledger `df` (columns SKU, Name, Size,
Counted Qty).  The quantity cell is `PyVal` because the code stores an
int on insert but reloads the column as strings (`dtype=str`). -/
structure LedgerRow where
  sku : String
  name : String
  size : String
  qty : PyVal
deriving DecidableEq

/-- The in-memory count ledger, rows in table order. -/
abbrev Ledger := List LedgerRow

/-- One row of the session spreadsheet file on disk; `to_excel` writes
each cell with its runtime type (numeric cell for int, text for str). -/
structure FileRow where
  sku : String
  name : String
  size : String
  qty : PyVal
deriving DecidableEq

/-- `df.to_excel(XLSX_FILE, index=False)`: snapshot the whole table. -/
def to_excel (df : Ledger) : List FileRow :=
  df.map fun r => { sku := r.sku, name := r.name, size := r.size, qty := r.qty }

/-- `pd.read_excel(XLSX_FILE, dtype=str)` (app.py line 36): every cell
comes back as its string rendering. -/
def read_excel_dtype_str (file : List FileRow) : Ledger :=
  file.map fun c =>
    { sku := c.sku, name := c.name, size := c.size,
      qty := .str (pyValToStr c.qty) }

/-- app.py lines 145-146: `idx = df[df["SKU"] == sku].index[0]` followed
by `df.at[idx, "Counted Qty"] += qty`.  Walks to the first row whose SKU
matches and adds `qty` to its quantity cell; if that cell holds a string
the Python addition `str + int` raises TypeError, modelled as `none`. -/
def incFirst (sku : String) (q : Nat) : Ledger → Option Ledger
  | [] => none
  | r :: rest =>
    if r.sku == sku then
      match r.qty with
      | .int n => some ({ r with qty := .int (n + q) } :: rest)
      | .str _ => none
    else (incFirst sku q rest).map (fun l => r :: l)

/-- app.py lines 144-150: the ledger `add`.  If the SKU occurs in the
SKU column, increment the first matching row (possibly crashing on a
string cell); otherwise append a fresh row with an integer quantity. -/
def ledgerAdd (df : Ledger) (sku name size : String) (q : Nat) :
    Option Ledger :=
  if df.any (fun r => r.sku == sku) then incFirst sku q df
  else some (df ++ [{ sku := sku, name := name, size := size, qty := .int q }])

/-- Observable outcome of one form submission. -/
inductive Outcome where
  | ignored
  | notFound
  | falsySku
  | typeError
  | added
deriving DecidableEq

/-- The submission handler, app.py lines 125-153.  Returns the resulting
in-memory ledger, whether `df.to_excel` ran (a session-file write), and
the observable outcome.  The guard on line 125 is
`submitted and entry and quantity is not None`: a blank (None) quantity
or empty entry is silently ignored, but a zero quantity passes. -/
def handleSubmission (lt : List LookupRow) (df : Ledger) (submitted : Bool)
    (entry : String) (qtyInput : Option Nat) : Ledger × Bool × Outcome :=
  match submitted, qtyInput with
  | true, some q =>
    if entry = "" then (df, false, .ignored)
    else
      match resolve lt entry with
      | none => (df, false, .notFound)
      | some (sku, name, size) =>
        if sku = "" then (df, false, .falsySku)
        else
          match ledgerAdd df sku name size q with
          | none => (df, false, .typeError)
          | some df' => (df', true, .added)
  | _, _ => (df, false, .ignored)

/-- The reset handler, app.py lines 106-113: only when the button is
pressed and the confirmation checkbox is ticked is the ledger replaced
by the empty table and the file rewritten. -/
def handleReset (pressed confirm : Bool) (df : Ledger) : Ledger × Bool :=
  if pressed && confirm then ([], true) else (df, false)

/-- Insertion step for the SKU sort used by the grid view. -/
def insertBySku (r : LedgerRow) : Ledger → Ledger
  | [] => [r]
  | x :: xs => if x.sku ≤ r.sku then x :: insertBySku r xs else r :: x :: xs

/-- `df.sort_values("SKU").reset_index(drop=True)`: the grid view shown
to the user (app.py line 196). -/
def sortBySku (df : Ledger) : Ledger :=
  df.foldr insertBySku []

/-- The grid-edit write-back, app.py lines 195-207: whatever table the
editor returns replaces `df` unconditionally (no validation) and is
written to the file whenever it differs from the displayed view. -/
def gridWriteBack (df updated : Ledger) : Ledger × Bool :=
  if updated = sortBySku df then (df, false) else (updated, true)

/-- SKU is unique among the ledger rows. -/
def skuUnique (df : Ledger) : Prop :=
  (df.map (fun r => r.sku)).Nodup

/-- A quantity cell that is a non-negative integer. -/
def qtyOk : PyVal → Bool
  | .int n => decide (0 ≤ n)
  | .str _ => false

/-- The ledger invariant claimed by the spec: unique SKUs and
non-negative integer quantities. -/
def ledgerInv (df : Ledger) : Prop :=
  skuUnique df ∧ ∀ r ∈ df, qtyOk r.qty = true

/-- Normalization as the spec words it: trim surrounding whitespace and
remove only a trailing ".0" suffix, leaving everything else unchanged.
Stated from the spec for comparison with the code's `normalize_entry`. -/
def specTrailingNorm (s : String) : String :=
  match (pyStrip s).toList.reverse with
  | '0' :: '.' :: rest => String.mk rest.reverse
  | _ => pyStrip s

/-! Concrete tables used by witnesses and counterexamples. -/

/-- A one-row lookup table: barcode "012345" maps to SKU "SKU1",
name "Widget", size "10oz" (the spec's own scenario 5). -/
def demoLookup1 : List LookupRow :=
  load_lookup [{ upc := "012345", sku := "SKU1", brandName := "Widget", size := "10oz" }]

/-- A two-row lookup table with unique UPCs and unique SKUs in which the
string "222" is both the UPC of the first row and the SKU of the second. -/
def demoLookup2 : List LookupRow :=
  load_lookup
    [{ upc := "222", sku := "333", brandName := "BrandB", size := "8oz" },
     { upc := "111", sku := "222", brandName := "BrandA", size := "4oz" }]

/-- Claim C8: the reset handler replaces the ledger with an empty table
and persists exactly when the button is pressed with the confirmation
flag set; without confirmation (or without a press) nothing changes and
no write occurs. -/
theorem C8_reset_confirm_gate (df : Ledger) (confirm : Bool) :
    handleReset true true df = (([] : Ledger), true) ∧
    handleReset true false df = (df, false) ∧
    handleReset false confirm df = (df, false) := by
  refine ⟨rfl, rfl, ?_⟩
  cases confirm <;> rfl

/-- Claim C9: resolution consults the barcode (UPC) index first — a UPC
hit decides the result — and consults the SKU index only when the
normalized entry is absent from the UPC index. -/
theorem C9_barcode_index_first (lt : List LookupRow) (e : String) :
    (∀ r, findByUPC lt (normalize_entry e) = some r →
      resolve lt e = some (r.sku, r.brandName, r.size)) ∧
    (findByUPC lt (normalize_entry e) = none →
      ∀ r, findBySKU lt (normalize_entry e) = some r →
        resolve lt e = some (normalize_entry e, r.brandName, r.size)) := by
  constructor
  · intro r h
    simp [resolve, h]
  · intro h r h2
    simp [resolve, h, h2]

/-- Witness for C9 at a table where "222" is in both indexes: the
barcode hit ("222" is BrandB's UPC) wins over the SKU hit. -/
theorem C9_barcode_index_first_witness :
    resolve demoLookup2 "222" = some ("333", "BrandB", "8oz") :=
  (C9_barcode_index_first demoLookup2 "222").1
    { upc := "222", sku := "333", brandName := "BrandB", size := "8oz" }
    (by decide)

/-- Claim C7: an entry absent from both the UPC index and the SKU index
yields the not-found outcome, leaves the ledger unchanged, and causes no
session-file write. -/
theorem C7_unknown_entry_noop (lt : List LookupRow) (df : Ledger)
    (entry : String) (q : Nat) (hne : entry ≠ "")
    (h1 : findByUPC lt (normalize_entry entry) = none)
    (h2 : findBySKU lt (normalize_entry entry) = none) :
    handleSubmission lt df true entry (some q) = (df, false, Outcome.notFound) := by
  simp [handleSubmission, hne, resolve, h1, h2]

/-- Witness for C7: scanning the unknown code "999999" on a non-empty
ledger is a no-op with a not-found signal. -/
theorem C7_unknown_entry_noop_witness :
    handleSubmission demoLookup1
      [{ sku := "SKU1", name := "Widget", size := "10oz", qty := PyVal.int 3 }]
      true "999999" (some 4) =
    ([{ sku := "SKU1", name := "Widget", size := "10oz", qty := PyVal.int 3 }],
      false, Outcome.notFound) :=
  C7_unknown_entry_noop demoLookup1
    [{ sku := "SKU1", name := "Widget", size := "10oz", qty := PyVal.int 3 }]
    "999999" 4 (by decide) (by decide) (by decide)

/-- Counterexample to claim C3: a submission with quantity zero is not
ignored — it passes the `quantity is not None` guard, reaches the ledger
add, creates a row with Counted Qty 0, and rewrites the session file. -/
theorem C3_zero_qty_counterexample :
    handleSubmission demoLookup1 [] true "012345" (some 0) =
      ([{ sku := "SKU1", name := "Widget", size := "10oz", qty := PyVal.int 0 }],
        true, Outcome.added) ∧
    ([{ sku := "SKU1", name := "Widget", size := "10oz", qty := PyVal.int 0 }] : Ledger) ≠ [] := by
  exact ⟨rfl, by decide⟩

/-- Claim C3 as amended: a blank quantity (None) is silently ignored —
ledger unchanged, no write — for every table and entry; a zero quantity,
however, passes the guard, reaches the ledger add and triggers a write. -/
theorem C3_blank_qty_ignored (lt : List LookupRow) (df : Ledger)
    (submitted : Bool) (entry : String) :
    handleSubmission lt df submitted entry none = (df, false, Outcome.ignored) ∧
    handleSubmission demoLookup1 [] true "012345" (some 0) =
      ([{ sku := "SKU1", name := "Widget", size := "10oz", qty := PyVal.int 0 }],
        true, Outcome.added) := by
  constructor
  · cases submitted <;> rfl
  · rfl

/-- Counterexample to claim C1: persisting a ledger whose Counted Qty is
the integer 4 and reloading it (dtype=str) does not reproduce the same
rows — the quantity comes back as the string "4". -/
theorem C1_roundtrip_counterexample :
    read_excel_dtype_str (to_excel
      [{ sku := "SKU1", name := "Widget", size := "10oz", qty := PyVal.int 4 }]) ≠
    [{ sku := "SKU1", name := "Widget", size := "10oz", qty := PyVal.int 4 }] := by
  decide

/-- Claim C1 as amended: the persist-then-reload round trip preserves
SKU, Name and Size exactly and maps each Counted Qty cell to the string
rendering of the persisted value (so a ledger whose quantities are
already strings round-trips identically, but integer quantities come
back as strings). -/
theorem C1_roundtrip_amended (df : Ledger) :
    read_excel_dtype_str (to_excel df) =
      df.map (fun r => { r with qty := PyVal.str (pyValToStr r.qty) }) := by
  induction df with
  | nil => rfl
  | cons r rest _ => simp [to_excel, read_excel_dtype_str]

/-- Claim C2, evaluated at the failing input: the first scan of barcode
"012345" with qty 3 succeeds, but after the persist-and-reload that the
app performs between submissions the quantity cell is the string "3",
and the second scan of the same SKU with qty 2 hits `str + int`
(a TypeError) instead of accumulating to 5: no row is updated and no
write occurs. -/
theorem C2_accumulate_code_bug :
    handleSubmission demoLookup1 [] true "012345" (some 3) =
      ([{ sku := "SKU1", name := "Widget", size := "10oz", qty := PyVal.int 3 }],
        true, Outcome.added) ∧
    handleSubmission demoLookup1
        (read_excel_dtype_str (to_excel
          [{ sku := "SKU1", name := "Widget", size := "10oz", qty := PyVal.int 3 }]))
        true "SKU1" (some 2) =
      ([{ sku := "SKU1", name := "Widget", size := "10oz", qty := PyVal.str "3" }],
        false, Outcome.typeError) := by
  exact ⟨rfl, rfl⟩

/-- Step equation for replaceDot0 when the head is not the start of a
".0" occurrence. -/
theorem replaceDot0_step (c : Char) (rest : List Char)
    (hne : ∀ rest', c = '.' → rest = '0' :: rest' → False) :
    replaceDot0 (c :: rest) = c :: replaceDot0 rest := by
  rw [replaceDot0.eq_def]
  split
  · rename_i rest' heq
    rw [List.cons.injEq] at heq
    obtain ⟨h1, h2⟩ := heq
    exact (hne rest' h1 h2).elim
  · rename_i c' rest' heq
    rw [List.cons.injEq] at heq
    obtain ⟨h1, h2⟩ := heq
    subst h1; subst h2; rfl
  · rename_i heq
    exact (List.cons_ne_nil _ _ heq).elim

/-- A string without any '.' character is left unchanged by the ".0"
removal. -/
theorem replaceDot0_no_dot (cs : List Char) (h : '.' ∉ cs) :
    replaceDot0 cs = cs := by
  induction cs using replaceDot0.induct with
  | case1 rest ih => simp at h
  | case2 c rest hne ih =>
    rw [replaceDot0_step c rest hne, ih (fun hm => h (List.mem_cons_of_mem _ hm))]
  | case3 => rfl

/-- A trailing ".0" is always removed (on top of whatever the scan does
to the rest of the string). -/
theorem replaceDot0_append_dot0 (cs : List Char) :
    replaceDot0 (cs ++ ['.', '0']) = replaceDot0 cs := by
  induction cs using replaceDot0.induct with
  | case1 rest ih =>
    have hsplit : ('.' :: '0' :: rest) ++ ['.', '0'] =
        '.' :: '0' :: (rest ++ ['.', '0']) := rfl
    rw [hsplit, replaceDot0, replaceDot0, ih]
  | case2 c rest hne ih =>
    have hstep2 : replaceDot0 ((c :: rest) ++ ['.', '0']) =
        c :: replaceDot0 (rest ++ ['.', '0']) := by
      apply replaceDot0_step
      intro rest' h1 h2
      cases rest with
      | nil => simp at h2
      | cons r0 rest'' =>
        injection h2 with h2a h2b
        exact hne rest'' h1 (by rw [h2a])
    rw [hstep2, ih, replaceDot0_step c rest hne]
  | case3 => rfl

/-- Counterexample to claim C4: the code's normalization is not
"trailing .0 only" — on "1.05" it deletes the interior ".0" and yields
"15", while the spec-described trailing-only normalization leaves
"1.05" unchanged; and the lookup loader does not apply the ".0" removal
to SKU text at all (SKU "SKU7.0" is kept verbatim). -/
theorem C4_normalize_counterexample :
    normalize_entry "1.05" = "15" ∧
    specTrailingNorm "1.05" = "1.05" ∧
    normalize_entry "1.05" ≠ specTrailingNorm "1.05" ∧
    load_lookup
        [{ upc := "012345", sku := "SKU7.0", brandName := "Widget", size := "10oz" }] =
      [{ upc := "012345", sku := "SKU7.0", brandName := "Widget", size := "10oz" }] := by
  refine ⟨by decide, by decide, by decide, by decide⟩

/-- Claim C4 as amended: normalization trims surrounding whitespace and
removes every left-to-right occurrence of the substring ".0" (so a
string with no '.' is unchanged and a trailing ".0" is removed, but
interior occurrences such as in "1.05" are removed too); the loader
applies this full normalization to UPC text only, while SKU text is
merely trimmed. -/
theorem C4_normalize_amended :
    (∀ cs : List Char, '.' ∉ cs → replaceDot0 cs = cs) ∧
    (∀ cs : List Char, replaceDot0 (cs ++ ['.', '0']) = replaceDot0 cs) ∧
    normalize_entry "1.05" = "15" ∧
    (∀ rows : List RawLookupRow, load_lookup rows = rows.map fun r =>
      { upc := normalize_entry r.upc, sku := pyStrip r.sku,
        brandName := r.brandName, size := r.size }) := by
  exact ⟨replaceDot0_no_dot, replaceDot0_append_dot0, by decide, fun _ => rfl⟩

/-- Witness for C4 (amended): a dot-free string is untouched by the
".0" removal pass. -/
theorem C4_normalize_amended_witness :
    replaceDot0 "abc".toList = "abc".toList :=
  C4_normalize_amended.1 "abc".toList (by decide)

/-- Counterexample to claim C6: in a lookup table with unique UPCs and
unique SKUs, barcode "111" has SKU "222", but "222" is also the UPC of a
different row; since resolution probes the UPC index first, resolving
the barcode "111" and resolving its SKU "222" return different
entries. -/
theorem C6_resolve_counterexample :
    findByUPC demoLookup2 "111" =
      some { upc := "111", sku := "222", brandName := "BrandA", size := "4oz" } ∧
    resolve demoLookup2 "111" = some ("222", "BrandA", "4oz") ∧
    resolve demoLookup2 "222" = some ("333", "BrandB", "8oz") ∧
    resolve demoLookup2 "111" ≠ resolve demoLookup2 "222" := by
  refine ⟨by decide, by decide, by decide, by decide⟩

/-- Claim C6 as amended: resolving a barcode B that hits lookup row r,
and resolving r's SKU, return the same entry provided the SKU is fixed
by entry normalization, is not itself present in the UPC index, and
names a unique brand/size among rows sharing that SKU. -/
theorem C6_resolve_agree (lt : List LookupRow) (B : String) (r : LookupRow)
    (h1 : findByUPC lt (normalize_entry B) = some r)
    (h2 : normalize_entry r.sku = r.sku)
    (h3 : findByUPC lt r.sku = none)
    (h4 : ∀ r' ∈ lt, r'.sku = r.sku → r'.brandName = r.brandName ∧ r'.size = r.size) :
    resolve lt B = some (r.sku, r.brandName, r.size) ∧
    resolve lt r.sku = some (r.sku, r.brandName, r.size) := by
  constructor
  · simp [resolve, h1]
  · have hmem : r ∈ lt := List.mem_of_find?_eq_some h1
    have hex : ∃ x, findBySKU lt r.sku = some x := by
      cases hfind : findBySKU lt r.sku with
      | some x => exact ⟨x, rfl⟩
      | none =>
        have hnone := List.find?_eq_none.1 hfind r hmem
        simp at hnone
    obtain ⟨x, hx⟩ := hex
    have hx' : List.find? (fun q => q.sku == r.sku) lt = some x := hx
    have hxp := List.find?_some hx'
    have hxm : x ∈ lt := List.mem_of_find?_eq_some hx'
    have hxs : x.sku = r.sku := by simpa using hxp
    obtain ⟨hb, hs⟩ := h4 x hxm hxs
    simp [resolve, h2, h3, hx, hb, hs]

/-- Witness for C6 (amended): on the spec's scenario table, resolving
the barcode "012345" and resolving its SKU "SKU1" both give
(SKU1, Widget, 10oz). -/
theorem C6_resolve_agree_witness :
    resolve demoLookup1 "012345" = some ("SKU1", "Widget", "10oz") ∧
    resolve demoLookup1 "SKU1" = some ("SKU1", "Widget", "10oz") :=
  C6_resolve_agree demoLookup1 "012345"
    { upc := "012345", sku := "SKU1", brandName := "Widget", size := "10oz" }
    (by decide) (by decide) (by decide) (by decide)

/-- incFirst on a list whose first SKU match is the integer-quantity row
r updates exactly that row and leaves every other row unchanged. -/
theorem incFirst_append_first (sku : String) (q : Nat) (post : Ledger)
    (r : LedgerRow) (n : Int) (hr : r.sku = sku) (hq : r.qty = PyVal.int n) :
    ∀ pre : Ledger, (∀ p ∈ pre, (p.sku == sku) = false) →
      incFirst sku q (pre ++ r :: post) =
        some (pre ++ { r with qty := PyVal.int (n + q) } :: post)
  | [], _ => by simp [incFirst, hr, hq]
  | p :: rest, hpre => by
    have hp : (p.sku == sku) = false := hpre p (by simp)
    have ih := incFirst_append_first sku q post r n hr hq rest
      (fun x hx => hpre x (List.mem_cons_of_mem _ hx))
    simp [incFirst, hp, ih]

/-- A successful incFirst keeps the SKU column unchanged and preserves
"every quantity is a non-negative integer". -/
theorem incFirst_spec (sku : String) (q : Nat) :
    ∀ l l' : Ledger, incFirst sku q l = some l' →
      l'.map (fun r => r.sku) = l.map (fun r => r.sku) ∧
      ((∀ r ∈ l, qtyOk r.qty = true) → ∀ r ∈ l', qtyOk r.qty = true)
  | [], l', h => by simp [incFirst] at h
  | r :: rest, l', h => by
    by_cases hr : (r.sku == sku) = true
    · rw [incFirst, if_pos hr] at h
      cases hqv : r.qty with
      | str s => rw [hqv] at h; exact absurd h (by simp)
      | int n =>
        rw [hqv] at h
        injection h with h
        subst h
        refine ⟨by simp, fun hall x hx => ?_⟩
        rcases List.mem_cons.1 hx with hx | hx
        · have h0 := hall r (List.mem_cons_self r rest)
          rw [hqv] at h0
          simp [qtyOk] at h0
          subst hx
          simp [qtyOk]
          omega
        · exact hall x (List.mem_cons_of_mem _ hx)
    · rw [incFirst, if_neg hr] at h
      rw [Option.map_eq_some'] at h
      obtain ⟨l'', h1, h2⟩ := h
      obtain ⟨ihmap, ihqty⟩ := incFirst_spec sku q rest l'' h1
      subst h2
      refine ⟨by simp [ihmap], fun hall x hx => ?_⟩
      rcases List.mem_cons.1 hx with hx | hx
      · subst hx
        exact hall x (List.mem_cons_self x rest)
      · exact ihqty (fun y hy => hall y (List.mem_cons_of_mem _ hy)) x hx

/-- When some row matches the SKU and all quantities are non-negative
integers, the increment succeeds (no TypeError). -/
theorem incFirst_total (sku : String) (q : Nat) :
    ∀ l : Ledger, (∀ r ∈ l, qtyOk r.qty = true) →
      l.any (fun r => r.sku == sku) = true →
      ∃ l', incFirst sku q l = some l' := by
  intro l
  induction l with
  | nil => intro _ h; simp at h
  | cons r rest ih =>
    intro hall hany
    by_cases hr : (r.sku == sku) = true
    · have h0 := hall r (List.mem_cons_self r rest)
      cases hqv : r.qty with
      | int n => exact ⟨_, by rw [incFirst, if_pos hr, hqv]⟩
      | str s => rw [hqv] at h0; simp [qtyOk] at h0
    · have hany' : rest.any (fun x => x.sku == sku) = true := by
        simp only [List.any_cons, Bool.or_eq_true] at hany
        rcases hany with hany | hany
        · exact absurd hany hr
        · exact hany
      obtain ⟨l'', h⟩ := ih (fun x hx => hall x (List.mem_cons_of_mem _ hx)) hany'
      exact ⟨r :: l'', by rw [incFirst, if_neg hr, h]; rfl⟩

/-- Claim C10: if the ledger holds several rows with the same SKU (no
row before the first of them matching), an accepted scan of that SKU
increments the Counted Qty of only the first matching row in table
order, leaving every other row — including the later duplicates —
unchanged. -/
theorem C10_increments_first_duplicate (pre post : Ledger) (r : LedgerRow)
    (name size : String) (q : Nat) (n : Int)
    (hpre : ∀ p ∈ pre, p.sku ≠ r.sku) (hq : r.qty = PyVal.int n) :
    ledgerAdd (pre ++ r :: post) r.sku name size q =
      some (pre ++ { r with qty := PyVal.int (n + q) } :: post) := by
  have hpre' : ∀ p ∈ pre, (p.sku == r.sku) = false := fun p hp => by
    simp [hpre p hp]
  have hany : (pre ++ r :: post).any (fun x => x.sku == r.sku) = true := by
    refine List.any_eq_true.2 ⟨r, ?_, ?_⟩ <;> simp
  rw [ledgerAdd, if_pos hany]
  exact incFirst_append_first r.sku q post r n rfl hq pre hpre'

/-- Witness for C10: with duplicate "A" rows (quantities 1 and 5), an
accepted scan of "A" with qty 2 turns the first into 3 and leaves the
second at 5. -/
theorem C10_increments_first_duplicate_witness :
    ledgerAdd
      [{ sku := "B", name := "b", size := "s", qty := PyVal.int 1 },
       { sku := "A", name := "a", size := "s", qty := PyVal.int 1 },
       { sku := "A", name := "a2", size := "s2", qty := PyVal.int 5 }]
      "A" "x" "y" 2 =
    some
      [{ sku := "B", name := "b", size := "s", qty := PyVal.int 1 },
       { sku := "A", name := "a", size := "s", qty := PyVal.int 3 },
       { sku := "A", name := "a2", size := "s2", qty := PyVal.int 5 }] :=
  C10_increments_first_duplicate
    [{ sku := "B", name := "b", size := "s", qty := PyVal.int 1 }]
    [{ sku := "A", name := "a2", size := "s2", qty := PyVal.int 5 }]
    { sku := "A", name := "a", size := "s", qty := PyVal.int 1 }
    "x" "y" 2 1 (by decide) rfl

/-- A ledger with two rows sharing SKU "A". -/
def dupLedger : Ledger :=
  [{ sku := "A", name := "n", size := "s", qty := PyVal.int 1 },
   { sku := "A", name := "n2", size := "s2", qty := PyVal.int 2 }]

/-- Counterexample to claim C5: the grid-edit write-back accepts a table
with duplicate SKUs unchanged (and persists it), so the invariant is not
preserved by grid edits; moreover reloading a persisted ledger turns the
integer quantities into strings, so load does not preserve "Counted Qty
is an integer" either. -/
theorem C5_invariant_counterexample :
    gridWriteBack [{ sku := "A", name := "n", size := "s", qty := PyVal.int 1 }]
        dupLedger = (dupLedger, true) ∧
    ¬ skuUnique dupLedger ∧
    ¬ (∀ r ∈ read_excel_dtype_str (to_excel dupLedger), qtyOk r.qty = true) := by
  refine ⟨by decide, ?_, by decide⟩
  unfold skuUnique dupLedger
  decide

/-- Claim C5 as amended: on a ledger satisfying the invariant (unique
SKUs, non-negative integer quantities), the scan add succeeds and
preserves the invariant, and the reset handler always leaves an
invariant-satisfying ledger; the invariant is NOT maintained by the
unvalidated grid-edit write-back or by the string-typed reload. -/
theorem C5_add_reset_preserve (df : Ledger) (sku name size : String)
    (q : Nat) (h : ledgerInv df) :
    (∃ df', ledgerAdd df sku name size q = some df' ∧ ledgerInv df') ∧
    (∀ pressed confirm, ledgerInv (handleReset pressed confirm df).1) := by
  obtain ⟨hu, hq⟩ := h
  constructor
  · by_cases hany : df.any (fun r => r.sku == sku) = true
    · obtain ⟨df', hdf'⟩ := incFirst_total sku q df hq hany
      obtain ⟨hmap, hqok⟩ := incFirst_spec sku q df df' hdf'
      refine ⟨df', by rw [ledgerAdd, if_pos hany]; exact hdf', ?_, hqok hq⟩
      unfold skuUnique at hu ⊢
      rw [hmap]
      exact hu
    · have hany' : df.any (fun r => r.sku == sku) = false :=
        Bool.eq_false_iff.2 hany
      have hnotmem : ∀ p ∈ df, p.sku ≠ sku := by
        intro p hp
        have := List.any_eq_false.1 hany' p hp
        simpa using this
      refine ⟨df ++ [{ sku := sku, name := name, size := size, qty := PyVal.int q }],
        by rw [ledgerAdd, if_neg (by simp [hany'])], ?_, ?_⟩
      · unfold skuUnique at hu ⊢
        rw [List.map_append]
        rw [List.nodup_append]
        refine ⟨hu, by simp, ?_⟩
        intro a ha hb
        simp at hb
        subst hb
        obtain ⟨p, hp, hps⟩ := List.mem_map.1 ha
        exact hnotmem p hp hps
      · intro x hx
        rcases List.mem_append.1 hx with hx | hx
        · exact hq x hx
        · simp at hx
          subst hx
          simp [qtyOk]
  · intro pressed confirm
    cases hpc : pressed && confirm
    · rw [handleReset, hpc]
      exact ⟨hu, hq⟩
    · rw [handleReset, hpc]
      exact ⟨by unfold skuUnique; simp, by simp⟩

/-- Witness for C5 (amended) on a one-row invariant-satisfying ledger. -/
theorem C5_add_reset_preserve_witness :
    (∃ df', ledgerAdd
        [{ sku := "SKU1", name := "Widget", size := "10oz", qty := PyVal.int 3 }]
        "SKU1" "Widget" "10oz" 2 = some df' ∧ ledgerInv df') ∧
    (∀ pressed confirm, ledgerInv (handleReset pressed confirm
        [{ sku := "SKU1", name := "Widget", size := "10oz", qty := PyVal.int 3 }]).1) :=
  C5_add_reset_preserve
    [{ sku := "SKU1", name := "Widget", size := "10oz", qty := PyVal.int 3 }]
    "SKU1" "Widget" "10oz" 2
    ⟨by unfold skuUnique; decide, by decide⟩

end BarcodeApp
